import Mathlib

/-!
Shallow embedding of `xscreensaver-suspend` (src/main.rs) for checking the
natural-language specification against the code.

Modelling conventions:
* `Instant` is a `Nat` (monotonic clock tick); `Duration` compared against an
  elapsed `Instant` difference is likewise a `Nat`.  `SystemTime` (used only by
  the inhibitor check) is an `Int`, in seconds.
* Rust strings are handled as `List Char` internally; every string routine the
  program uses (`split(':')`, `splitn(2, ':')`, `rsplit(':')`, `trim`,
  `to_lowercase`, `contains`, `u64::parse`, `bool::parse`) is re-implemented
  structurally so that everything evaluates by kernel reduction.
* Fallible code (`expect`/panic paths) returns `Option` / `Except String`,
  the `String` carrying the Rust `expect` message.
-/

namespace XscreensaverSuspend

/-- Rust `str::split(':')`: splits a character list at every `':'`; always
returns at least one (possibly empty) piece, like the Rust iterator. -/
def splitOnChar (c : Char) : List Char → List (List Char)
  | [] => [[]]
  | x :: xs =>
    match splitOnChar c xs with
    | [] => [[x]]
    | y :: ys => if x = c then [] :: y :: ys else (x :: y) :: ys

/-- Re-joins pieces with `':'`; used to model Rust `splitn(2, ':')`, whose
second element is the original text after the first colon, colons kept. -/
def joinColon : List (List Char) → List Char
  | [] => []
  | [x] => x
  | x :: y :: ys => x ++ ':' :: joinColon (y :: ys)

/-- Boolean list-prefix test (Rust strings are byte sequences; here `Char`). -/
def startsWithL : List Char → List Char → Bool
  | [], _ => true
  | _ :: _, [] => false
  | x :: xs, y :: ys => x = y && startsWithL xs ys

/-- Rust `str::contains(pat)`: substring test. -/
def hasInfixL (pat : List Char) : List Char → Bool
  | [] => startsWithL pat []
  | y :: ys => startsWithL pat (y :: ys) || hasInfixL pat ys

/-- Rust `str::trim`: drops whitespace from both ends. -/
def trimL (s : List Char) : List Char :=
  ((s.dropWhile Char.isWhitespace).reverse.dropWhile Char.isWhitespace).reverse

/-- ASCII lower-casing of one character (Rust `to_lowercase`; the config values
involved are ASCII, where the two functions agree). -/
def lowerChar (c : Char) : Char :=
  if 'A' ≤ c && c ≤ 'Z' then Char.ofNat (c.toNat + 32) else c

/-- Accumulator for decimal digit parsing; fails on any non-digit. -/
def digitsValAux (acc : Nat) : List Char → Option Nat
  | [] => some acc
  | c :: cs =>
    if '0' ≤ c && c ≤ '9' then digitsValAux (acc * 10 + (c.toNat - 48)) cs
    else none

/-- Rust `str::parse::<u64>`: optional leading `'+'`, at least one digit, all
digits, value below `2 ^ 64`. -/
def parseU64 (s : List Char) : Option Nat :=
  let t := match s with
    | '+' :: rest => rest
    | _ => s
  match t with
  | [] => none
  | _ => (digitsValAux 0 t).bind fun n => if n < 2 ^ 64 then some n else none

/-- The two-way event classification of `main` (src/main.rs:25-30): a line is a
lock event iff it contains the substring "LOCK"; everything else resets. -/
inductive LockEvent
  | lockOccurred
  | other
  deriving DecidableEq

/-- Classification used by `main`'s `match status`: Rust
`status.contains("LOCK")` (src/main.rs:25). -/
def classify (line : String) : LockEvent :=
  if hasInfixL "LOCK".toList line.toList then .lockOccurred else .other

/-- `XscreensaverSettings` (src/main.rs:107-114); durations as `Nat` seconds. -/
structure XscreensaverSettings where
  dpms_enabled : Bool
  dpms_off : Nat
  password_timeout : Nat
  deriving DecidableEq

/-- `XscreensaverSettings::parse_bool` (src/main.rs:142-147):
`line.split(':').last()`, trim, lower-case, `parse::<bool>()`.
`none` models the `expect("parsing bool")` panic. -/
def parse_bool (line : String) : Option Bool :=
  let tail := (splitOnChar ':' line.toList).reverse.headD []
  let t := (trimL tail).map lowerChar
  if t = "true".toList then some true
  else if t = "false".toList then some false
  else none

/-- The normalised tail `parse_bool` inspects: the text after the last colon of
the line — the whole line when it has no colon — trimmed and lower-cased. -/
def tailNorm (line : String) : List Char :=
  (trimL ((splitOnChar ':' line.toList).reverse.headD [])).map lowerChar

/-- Weighted sum over the `rsplit(':')` fields of `parse_time`
(src/main.rs:155-160): field at (right-based) index `i` is trimmed, parsed as
`u64` and multiplied by `60 * i`; `none` models `expect("Parse time as u64")`. -/
def fieldSumAux (i : Nat) : List (List Char) → Option Nat
  | [] => some 0
  | f :: fs =>
    match parseU64 (trimL f) with
    | none => none
    | some n =>
      match fieldSumAux (i + 1) fs with
      | none => none
      | some s => some (n * (60 * i) + s)

/-- `XscreensaverSettings::parse_time` (src/main.rs:150-165):
`splitn(2, ':').skip(1)` takes the text after the first colon (failing when
there is no colon, the `expect("Get time")` panic), then `rsplit(':')`
enumerates fields from the right and sums `field * (60 * index)`. -/
def parse_time (line : String) : Option Nat :=
  match splitOnChar ':' line.toList with
  | [] => none
  | [_] => none
  | _ :: rest => fieldSumAux 0 ((splitOnChar ':' (joinColon rest)).reverse)

/-- The loop-local mutable state of `main` (src/main.rs:19-20):
`timer : Option<Instant>` and `locked : Option<()>`. -/
structure TimerState where
  timer : Option Nat
  locked : Option Unit
  deriving DecidableEq

/-- Event dispatch of one loop iteration (src/main.rs:23-31): a received line
containing "LOCK" arms `timer := now`; any other received line clears both;
a receive timeout (`ev = none`) leaves the state untouched. -/
def handleEvent (st : TimerState) (ev : Option String) (now : Nat) : TimerState :=
  match ev with
  | none => st
  | some line =>
    match classify line with
    | .lockOccurred => { st with timer := some now }
    | .other => { timer := none, locked := none }

/-- Timer evaluation of one loop iteration (src/main.rs:33-54): the `match
(timer, locked)`.  The returned `Bool` is `true` exactly when `suspend()` is
invoked.  `password_timeout * 3` inlines the binding at src/main.rs:21. -/
def evalTimers (settings : XscreensaverSettings) (st : TimerState) (now : Nat) :
    TimerState × Bool :=
  match st.timer, st.locked with
  | some t, none =>
    if now - t > settings.dpms_off then (⟨none, some ()⟩, true) else (st, false)
  | some t, some _ =>
    if now - t > settings.password_timeout * 3 then (⟨none, some ()⟩, true)
    else (st, false)
  | none, some _ => (⟨some now, some ()⟩, false)
  | none, none => (st, false)

/-- One full iteration of the control loop (src/main.rs:22-55): event dispatch
then timer evaluation, both against the iteration's clock reading `now`. -/
def step (settings : XscreensaverSettings) (st : TimerState) (ev : Option String)
    (now : Nat) : TimerState × Bool :=
  evalTimers settings (handleEvent st ev now) now

/-- Runs the loop over a list of iterations, each an optional received line
paired with that iteration's clock reading; returns the final state and the
number of `suspend()` invocations. -/
def runCount (settings : XscreensaverSettings) :
    TimerState → List (Option String × Nat) → TimerState × Nat
  | st, [] => (st, 0)
  | st, (ev, now) :: rest =>
    let r := step settings st ev now
    let rr := runCount settings r.1 rest
    (rr.1, (if r.2 then 1 else 0) + rr.2)

/-- Clock reading of the last iteration in a nonempty event list. -/
def lastStamp : List (String × Nat) → Nat
  | [] => 0
  | [p] => p.2
  | _ :: q :: rest => lastStamp (q :: rest)

/-- Clock reading of the last iteration, with a default for the empty list. -/
def lastStampFrom (t0 : Nat) : List (String × Nat) → Nat
  | [] => t0
  | p :: rest => lastStampFrom p.2 rest

/-- Environment consumed by `suspend` / `inhibit_suspend` (src/main.rs:59-84):
the `HOME` variable, the `~/.no_suspend` marker's modification time (`none`
models any filesystem error, non-existence included), the wall clock
`SystemTime::now()` in seconds, and whether spawning
`/usr/bin/systemctl suspend` would succeed. -/
structure SuspendEnv where
  home : Option String
  marker_modified : Option Int
  sys_now : Int
  spawn_ok : Bool

/-- `inhibit_suspend` (src/main.rs:71-84): errors model the `expect` panics;
the marker inhibits iff its modification time is at least `now - 8h`; any
read error yields `false` via `unwrap_or_default`. -/
def inhibit_suspend (env : SuspendEnv) : Except String Bool :=
  match env.home with
  | none => .error "Get HOME environment variable"
  | some _ =>
    let no_suspend_lifetime : Int := env.sys_now - 8 * 60 * 60
    .ok (match env.marker_modified with
      | none => false
      | some modified => decide (no_suspend_lifetime ≤ modified))

/-- `suspend` (src/main.rs:59-67): returns early when inhibited; otherwise
spawns the suspend command, panicking (`expect("Suspending")`) when the spawn
fails.  The returned `Bool` is `true` iff the command was actually issued. -/
def suspend (env : SuspendEnv) : Except String Bool :=
  match inhibit_suspend env with
  | .error e => .error e
  | .ok true => .ok false
  | .ok false => if env.spawn_ok then .ok true else .error "Suspending"

/-- One loop iteration including the fallible `suspend()` call: the state
transition of `step` happens before `suspend()` runs (src/main.rs:35-39,
42-46), so a `suspend` panic aborts after the assignment.  The `Bool` of the
`.ok` result is `true` iff the suspend command was issued. -/
def loopBody (settings : XscreensaverSettings) (env : SuspendEnv) (st : TimerState)
    (ev : Option String) (now : Nat) : Except String (TimerState × Bool) :=
  let r := step settings st ev now
  if r.2 then (suspend env).map fun issued => (r.1, issued)
  else .ok (r.1, false)

/-!  Helper lemmas about single iterations. -/

/-- A received line classified `other` resets the state to `(None, None)` and
never fires `suspend` in the same iteration. -/
theorem step_other (settings : XscreensaverSettings) (st : TimerState)
    (line : String) (now : Nat) (h : classify line = LockEvent.other) :
    step settings st (some line) now = (⟨none, none⟩, false) := by
  simp [step, handleEvent, evalTimers, h]

/-- A received line classified `lockOccurred` re-arms the lock timer to `now`,
leaves `locked` untouched, and never fires `suspend` in the same iteration
(the freshly armed timer has zero elapsed time). -/
theorem step_lock (settings : XscreensaverSettings) (st : TimerState)
    (line : String) (now : Nat) (h : classify line = LockEvent.lockOccurred) :
    step settings st (some line) now = (⟨some now, st.locked⟩, false) := by
  cases st with
  | mk timer locked =>
    cases locked <;>
      simp [step, handleEvent, evalTimers, h, Nat.sub_self]

/-- Once the state is `(None, None)`, any run of `other` events keeps it there
and fires no suspend. -/
theorem runCount_other_nil (settings : XscreensaverSettings) :
    ∀ (evs : List (String × Nat)),
      (∀ p ∈ evs, classify p.1 = LockEvent.other) →
      runCount settings ⟨none, none⟩ (evs.map fun p => (some p.1, p.2)) =
        (⟨none, none⟩, 0) := by
  intro evs
  induction evs with
  | nil => intro _; rfl
  | cons p rest ih =>
    intro hall
    have hp : classify p.1 = LockEvent.other := hall p (List.mem_cons_self p rest)
    have hrec := ih fun x hx => hall x (List.mem_cons_of_mem p hx)
    simp [runCount, step_other settings ⟨none, none⟩ p.1 p.2 hp, hrec]

/-- A run of consecutive `other` events collapses the state to `(None, None)`
and fires no suspend, from any starting state. -/
theorem run_other_collapse (settings : XscreensaverSettings) :
    ∀ (evs : List (String × Nat)) (st : TimerState), evs ≠ [] →
      (∀ p ∈ evs, classify p.1 = LockEvent.other) →
      runCount settings st (evs.map fun p => (some p.1, p.2)) = (⟨none, none⟩, 0) := by
  intro evs st hne hall
  cases evs with
  | nil => exact absurd rfl hne
  | cons p rest =>
    have hp : classify p.1 = LockEvent.other := hall p (List.mem_cons_self p rest)
    have hrec := runCount_other_nil settings rest
      fun x hx => hall x (List.mem_cons_of_mem p hx)
    simp [runCount, step_other settings st p.1 p.2 hp, hrec]

/-- Once the lock timer is armed, a run of lock events re-arms it to the latest
event's timestamp, keeps `locked` unchanged, and fires no suspend. -/
theorem runCount_lock_aux (settings : XscreensaverSettings) :
    ∀ (evs : List (String × Nat)) (lk : Option Unit) (t0 : Nat),
      (∀ p ∈ evs, classify p.1 = LockEvent.lockOccurred) →
      runCount settings ⟨some t0, lk⟩ (evs.map fun p => (some p.1, p.2)) =
        (⟨some (lastStampFrom t0 evs), lk⟩, 0) := by
  intro evs
  induction evs with
  | nil => intro lk t0 _; rfl
  | cons p rest ih =>
    intro lk t0 hall
    have hp : classify p.1 = LockEvent.lockOccurred := hall p (List.mem_cons_self p rest)
    have hrec := ih lk p.2 fun x hx => hall x (List.mem_cons_of_mem p hx)
    simp [runCount, lastStampFrom, step_lock settings ⟨some t0, lk⟩ p.1 p.2 hp, hrec]

/-- On a nonempty list, `lastStampFrom` ignores its default. -/
theorem lastStampFrom_eq (t0 : Nat) :
    ∀ (evs : List (String × Nat)), evs ≠ [] → lastStampFrom t0 evs = lastStamp evs := by
  intro evs
  induction evs generalizing t0 with
  | nil => intro h; exact absurd rfl h
  | cons p rest ih =>
    intro _
    cases rest with
    | nil => rfl
    | cons q rest2 =>
      have := ih p.2 (by simp)
      simpa [lastStampFrom, lastStamp] using this

/-- A run of consecutive lock events leaves the lock timer at the latest
event's timestamp, keeps `locked` unchanged, and fires no suspend. -/
theorem run_lock_latest (settings : XscreensaverSettings) :
    ∀ (evs : List (String × Nat)) (st : TimerState), evs ≠ [] →
      (∀ p ∈ evs, classify p.1 = LockEvent.lockOccurred) →
      runCount settings st (evs.map fun p => (some p.1, p.2)) =
        (⟨some (lastStamp evs), st.locked⟩, 0) := by
  intro evs st hne hall
  cases evs with
  | nil => exact absurd rfl hne
  | cons p rest =>
    have hp : classify p.1 = LockEvent.lockOccurred := hall p (List.mem_cons_self p rest)
    have hrec := runCount_lock_aux settings rest st.locked p.2
      fun x hx => hall x (List.mem_cons_of_mem p hx)
    have hlast : lastStampFrom p.2 rest = lastStamp (p :: rest) := by
      have h0 := lastStampFrom_eq 0 (p :: rest) (by simp)
      simpa [lastStampFrom] using h0
    simp [runCount, step_lock settings st p.1 p.2 hp, hrec, hlast]

/-- With `HOME` set and the spawn succeeding, `suspend` cannot fail. -/
theorem suspend_isOk (env : SuspendEnv) (h : String) (h1 : env.home = some h)
    (h2 : env.spawn_ok = true) : ∃ b, suspend env = .ok b := by
  rcases hm : env.marker_modified with _ | m
  · have hi : inhibit_suspend env = .ok false := by
      simp only [inhibit_suspend, h1, hm]
    exact ⟨true, by simp [suspend, hi, h2]⟩
  · rcases hb : decide (env.sys_now - 8 * 60 * 60 ≤ m) with _ | _
    · have hi : inhibit_suspend env = .ok false := by
        simp only [inhibit_suspend, h1, hm, hb]
      exact ⟨true, by simp [suspend, hi, h2]⟩
    · have hi : inhibit_suspend env = .ok true := by
        simp only [inhibit_suspend, h1, hm, hb]
      exact ⟨false, by simp [suspend, hi]⟩

/-!  Claim theorems. -/

/-- C1 counterexample: the claim says the line "UNLOCK" is classified `Other`
and resets the state to `(None, None)`.  In the code (src/main.rs:25), Rust's
`"UNLOCK".contains("LOCK")` is true, so "UNLOCK" is classified as a lock event:
fed to a post-suspend state `(None, Some)` it re-arms the lock timer to `now`
instead of resetting. -/
theorem c1_counterexample :
    classify "UNLOCK" = LockEvent.lockOccurred ∧
      step ⟨true, 0, 1⟩ ⟨none, some ()⟩ (some "UNLOCK") 5 =
        (⟨some 5, some ()⟩, false) := by
  decide

/-- C1 (amended): every line NOT containing the substring "LOCK" — which
covers xscreensaver's genuine unlock notification "UNBLANK", but not the
literal line "UNLOCK" — is classified `Other`, resets `TimerState` to
`(None, None)`, and fires no suspend in that iteration; from `(None, None)`
no further suspend occurs absent a new lock event. -/
theorem c1_other_resets (settings : XscreensaverSettings) (st : TimerState)
    (line : String) (now : Nat) (h : classify line = LockEvent.other) :
    step settings st (some line) now = (⟨none, none⟩, false) :=
  step_other settings st line now h

/-- C1 witness: "UNBLANK" is classified `Other` and resets a post-suspend
state. -/
theorem c1_other_resets_witness :
    step ⟨true, 0, 1⟩ ⟨some 3, some ()⟩ (some "UNBLANK") 10 =
      (⟨none, none⟩, false) :=
  c1_other_resets ⟨true, 0, 1⟩ ⟨some 3, some ()⟩ "UNBLANK" 10 (by decide)

/-- C2: `parse_time` weights the field at right-based index `i` by `60 * i`,
so the rightmost field contributes nothing: replacing it by any other parseable
field leaves the sum unchanged, and the password-threshold value "0:0:5"
parses to duration 0. -/
theorem c2_rightmost_field_ignored :
    (∀ (f g : List Char) (rest : List (List Char)),
        (parseU64 (trimL f)).isSome → (parseU64 (trimL g)).isSome →
        fieldSumAux 0 (f :: rest) = fieldSumAux 0 (g :: rest)) ∧
      parse_time "passwdTimeout: 0:0:5" = some 0 := by
  constructor
  · intro f g rest hf hg
    obtain ⟨n, hn⟩ := Option.isSome_iff_exists.mp hf
    obtain ⟨n', hn'⟩ := Option.isSome_iff_exists.mp hg
    cases hrest : fieldSumAux 1 rest <;>
      simp [fieldSumAux, hn, hn', hrest]
  · decide

/-- C2 witness: swapping the rightmost field "5" for "999" leaves the weighted
sum unchanged. -/
theorem c2_rightmost_field_ignored_witness :
    fieldSumAux 0 ["5".toList, "7".toList] =
      fieldSumAux 0 ["999".toList, "7".toList] :=
  c2_rightmost_field_ignored.1 "5".toList "999".toList ["7".toList]
    (by decide) (by decide)

/-- C3: a nonempty run of `Other` events collapses `TimerState` to
`(None, None)` (idempotent reset, no suspend fired), and a nonempty run of
lock events sets the lock timer to the latest event's timestamp while leaving
an existing suspended marker untouched (no suspend fired). -/
theorem c3_reset_idempotent_lock_keeps_marker :
    (∀ (settings : XscreensaverSettings) (evs : List (String × Nat))
        (st : TimerState), evs ≠ [] →
        (∀ p ∈ evs, classify p.1 = LockEvent.other) →
        runCount settings st (evs.map fun p => (some p.1, p.2)) =
          (⟨none, none⟩, 0)) ∧
      (∀ (settings : XscreensaverSettings) (evs : List (String × Nat))
          (st : TimerState), evs ≠ [] →
          (∀ p ∈ evs, classify p.1 = LockEvent.lockOccurred) →
          runCount settings st (evs.map fun p => (some p.1, p.2)) =
            (⟨some (lastStamp evs), st.locked⟩, 0)) :=
  ⟨fun settings evs st => run_other_collapse settings evs st,
   fun settings evs st => run_lock_latest settings evs st⟩

/-- C3 witness: two `Other` lines collapse a locked-suspended state; two lock
lines keep the suspended marker and leave the timer at the later stamp. -/
theorem c3_reset_idempotent_lock_keeps_marker_witness :
    runCount ⟨true, 0, 1⟩ ⟨some 7, some ()⟩
        ([("UNBLANK", 1), ("BLANK", 2)].map fun p => (some p.1, p.2)) =
      (⟨none, none⟩, 0) ∧
    runCount ⟨true, 0, 1⟩ ⟨none, some ()⟩
        ([("LOCK", 3), ("LOCK", 9)].map fun p => (some p.1, p.2)) =
      (⟨some 9, some ()⟩, 0) :=
  ⟨c3_reset_idempotent_lock_keeps_marker.1 ⟨true, 0, 1⟩ _ ⟨some 7, some ()⟩
      (by decide) (by decide),
   c3_reset_idempotent_lock_keeps_marker.2 ⟨true, 0, 1⟩ _ ⟨none, some ()⟩
      (by decide) (by decide)⟩

/-- C4: in state `(Some t, None)` with no new event, one evaluation fires the
suspend trigger exactly when the elapsed time strictly exceeds the idle
threshold `dpms_off`, clearing the lock timer and setting the suspended
marker; at elapsed time exactly equal to the threshold (and below it) nothing
fires and the state is unchanged. -/
theorem c4_idle_threshold_strict (settings : XscreensaverSettings) (t now : Nat) :
    step settings ⟨some t, none⟩ none now =
      if settings.dpms_off < now - t then (⟨none, some ()⟩, true)
      else (⟨some t, none⟩, false) :=
  rfl

/-- C5 counterexample: the claim says the pair `(lockTimer, suspendedMarker)`
is one of `(None, None)`, `(Some, None)`, `(Some, Some)` at the start of every
iteration's evaluation.  Run "LOCK" at tick 0 then an empty poll at tick 1
(which fires suspend): at the start of iteration 3's evaluation, after a
further empty poll, the state is still `(None, Some)` — a fourth shape. -/
theorem c5_counterexample :
    (handleEvent
        (runCount ⟨true, 0, 1⟩ ⟨none, none⟩ [(some "LOCK", 0), (none, 1)]).1
        none 2).timer = none ∧
      (handleEvent
          (runCount ⟨true, 0, 1⟩ ⟨none, none⟩ [(some "LOCK", 0), (none, 1)]).1
          none 2).locked = some () := by
  decide

/-- C5 (amended): at the start of an evaluation the pair can also be
`(None, Some)`; that shape arises at the end of an iteration only when that
iteration fired the suspend trigger, and one further evaluation with no new
event re-arms it to `(Some now, Some)` without firing. -/
theorem c5_none_some_transient :
    (∀ (settings : XscreensaverSettings) (st : TimerState) (ev : Option String)
        (now : Nat),
        (step settings st ev now).1.timer = none →
        (step settings st ev now).1.locked = some () →
        (step settings st ev now).2 = true) ∧
      (∀ (settings : XscreensaverSettings) (now : Nat),
        step settings ⟨none, some ()⟩ none now = (⟨some now, some ()⟩, false)) := by
  constructor
  · intro settings st ev now
    simp only [step]
    generalize handleEvent st ev now = s
    obtain ⟨tm, lk⟩ := s
    intro h1 h2
    rcases tm with _ | t <;> rcases lk with _ | u
    · simp [evalTimers] at h2
    · simp [evalTimers] at h1
    · by_cases hc : now - t > settings.dpms_off
      · simp [evalTimers, hc]
      · simp [evalTimers, hc] at h1
    · by_cases hc : now - t > settings.password_timeout * 3
      · simp [evalTimers, hc]
      · simp [evalTimers, hc] at h1
  · intro settings now
    rfl

/-- C5 witness: the idle-threshold firing ends in `(None, Some)` and indeed
fired. -/
theorem c5_none_some_transient_witness :
    (step ⟨true, 0, 1⟩ ⟨some 0, none⟩ none 1).2 = true :=
  c5_none_some_transient.1 ⟨true, 0, 1⟩ ⟨some 0, none⟩ none 1
    (by decide) (by decide)

/-- C6: the password threshold the state machine compares against is
`password_timeout * 3` (src/main.rs:21); in state `(Some t, Some)` with no new
event the suspend trigger fires exactly when the elapsed time strictly exceeds
that tripled value, clearing the lock timer and keeping the suspended
marker. -/
theorem c6_password_threshold_tripled (settings : XscreensaverSettings)
    (t now : Nat) :
    step settings ⟨some t, some ()⟩ none now =
      if settings.password_timeout * 3 < now - t then (⟨none, some ()⟩, true)
      else (⟨some t, some ()⟩, false) :=
  rfl

/-- C7 counterexample: the claim says every line without a colon fails.  For a
colon-free line, `split(':').last()` is the whole line, so the line "true"
parses successfully to `true` despite having no colon. -/
theorem c7_counterexample :
    parse_bool "true" = some true ∧
      (splitOnChar ':' "true".toList).length = 1 := by
  decide

/-- C7 (amended): `parse_bool` takes the substring after the last colon — the
whole line when there is no colon — trims it, lower-cases it, and fails exactly
when the result is neither "true" nor "false". -/
theorem c7_bool_tail_literal (line : String) :
    parse_bool line = none ↔
      tailNorm line ≠ "true".toList ∧ tailNorm line ≠ "false".toList := by
  simp only [parse_bool, tailNorm]
  split_ifs with h1 h2
  · exact ⟨fun hx => hx.elim, fun hx => absurd h1 hx.1⟩
  · exact ⟨fun hx => hx.elim, fun hx => absurd h2 hx.2⟩
  · exact ⟨fun _ => ⟨h1, h2⟩, fun _ => rfl⟩

/-- C8 counterexample: the claim says nothing inside the main loop can abort
the process given validated settings.  With `dpmsEnabled` true and `HOME`
present, let the idle threshold elapse while the marker file is absent and the
spawn of `/usr/bin/systemctl suspend` fails: the loop body hits
`expect("Suspending")` (src/main.rs:66) and panics. -/
theorem c8_counterexample :
    loopBody ⟨true, 0, 1⟩ ⟨some "/home/user", none, 1000000, false⟩
        ⟨some 0, none⟩ none 1 = .error "Suspending" :=
  rfl

/-- C8 (amended): the loop body is infallible except for the suspend trigger's
own `expect` panics — whenever `HOME` is set and spawning the suspend command
succeeds, every iteration of the loop body returns normally. -/
theorem c8_loop_body_no_abort (settings : XscreensaverSettings)
    (env : SuspendEnv) (st : TimerState) (ev : Option String) (now : Nat)
    (h1 : env.home.isSome) (h2 : env.spawn_ok = true) :
    ∃ r, loopBody settings env st ev now = .ok r := by
  obtain ⟨hm, hh⟩ := Option.isSome_iff_exists.mp h1
  obtain ⟨b, hb⟩ := suspend_isOk env hm hh h2
  unfold loopBody
  by_cases hf : (step settings st ev now).2
  · exact ⟨((step settings st ev now).1, b), by simp [hf, hb, Except.map]⟩
  · exact ⟨((step settings st ev now).1, false), by simp [hf]⟩

/-- C8 witness: a firing iteration with `HOME` set and a working spawn returns
normally. -/
theorem c8_loop_body_no_abort_witness :
    ∃ r, loopBody ⟨true, 0, 1⟩ ⟨some "/h", none, 0, true⟩ ⟨some 0, none⟩ none 1 =
      .ok r :=
  c8_loop_body_no_abort ⟨true, 0, 1⟩ ⟨some "/h", none, 0, true⟩ ⟨some 0, none⟩
    none 1 rfl rfl

/-- C9: any filesystem error reading the inhibitor marker (non-existence
included) counts as not inhibited; and when the marker's modification time
lies within the 8-hour lookback window, a firing iteration still performs the
timer transition (clear lock timer, set suspended marker) while the suspend
command itself is not issued. -/
theorem c9_inhibited_still_transitions :
    (∀ (env : SuspendEnv) (h : String), env.home = some h →
        env.marker_modified = none → inhibit_suspend env = .ok false) ∧
      (∀ (settings : XscreensaverSettings) (env : SuspendEnv) (h : String)
          (m : Int) (t now : Nat),
        env.home = some h → env.marker_modified = some m →
        env.sys_now - 8 * 60 * 60 ≤ m → settings.dpms_off < now - t →
        loopBody settings env ⟨some t, none⟩ none now =
          .ok (⟨none, some ()⟩, false)) := by
  constructor
  · intro env h h1 h2
    simp only [inhibit_suspend, h1, h2]
  · intro settings env h m t now h1 h2 h3 h4
    have hd : decide (env.sys_now - 8 * 60 * 60 ≤ m) = true := decide_eq_true h3
    have hi : inhibit_suspend env = .ok true := by
      simp only [inhibit_suspend, h1, h2, hd]
    have hsus : suspend env = .ok false := by
      simp only [suspend, hi]
    have hst : step settings ⟨some t, none⟩ none now = (⟨none, some ()⟩, true) := by
      simp [step, handleEvent, evalTimers, h4]
    simp [loopBody, hst, hsus, Except.map]

/-- C9 witness: a missing marker is not inhibited; a marker modified one hour
ago inhibits the command while the state still transitions. -/
theorem c9_inhibited_still_transitions_witness :
    inhibit_suspend ⟨some "/h", none, 0, true⟩ = .ok false ∧
      loopBody ⟨true, 0, 1⟩ ⟨some "/h", some 32400, 36000, true⟩ ⟨some 0, none⟩
          none 1 = .ok (⟨none, some ()⟩, false) :=
  ⟨c9_inhibited_still_transitions.1 ⟨some "/h", none, 0, true⟩ "/h" rfl rfl,
   c9_inhibited_still_transitions.2 ⟨true, 0, 1⟩
     ⟨some "/h", some 32400, 36000, true⟩ "/h" 32400 0 1 rfl rfl
     (by decide) (by decide)⟩

/-- C10: with `HOME` set and the marker readable, the inhibitor check holds
exactly when the modification time is at least `now - 8h` — there is no upper
bound, so marker times in the future of `now` also inhibit. -/
theorem c10_no_upper_bound (env : SuspendEnv) (h : String) (m : Int)
    (h1 : env.home = some h) (h2 : env.marker_modified = some m) :
    inhibit_suspend env = .ok true ↔ env.sys_now - 8 * 60 * 60 ≤ m := by
  constructor
  · intro hok
    simp only [inhibit_suspend, h1, h2, Except.ok.injEq] at hok
    exact of_decide_eq_true hok
  · intro hle
    simp only [inhibit_suspend, h1, h2, decide_eq_true hle]

/-- C10 witness: a marker modified strictly in the future of `now` (time 1000
versus `now = 0`) still inhibits. -/
theorem c10_no_upper_bound_witness :
    ((0 : Int) < 1000) ∧
      inhibit_suspend ⟨some "/h", some 1000, 0, true⟩ = .ok true :=
  ⟨by decide,
   (c10_no_upper_bound ⟨some "/h", some 1000, 0, true⟩ "/h" 1000 rfl rfl).mpr
     (by decide)⟩

end XscreensaverSuspend
